import Mathlib

/-!
Verification of the blood-report analysis core of `src/app.py`.

The numeric values are modelled as exact rationals; the Python code uses
binary floating point, but every comparison the claims touch is between a
parsed decimal literal and a decimal table bound, where the ordering agrees.
Statuses are the literal strings used by the code.
-/

/-- One entry of the static reference table (`reference_ranges` values). -/
structure RefDetails where
  min : ℚ
  max : ℚ
  unit : String
  explanation : String
deriving DecidableEq

/-- One element of the `analysis` list built by `analyze_blood_report`. -/
structure Reading where
  parameter : String
  value : ℚ
  unit : String
  status : String
  explanation : String
deriving DecidableEq

/-- Characters matched by the regex class `[:\s]` (colon or ASCII whitespace). -/
def isSep (c : Char) : Bool :=
  c == ':' || c == ' ' || c == '\t' || c == '\n' || c == '\r' || c == '\x0b' || c == '\x0c'

/-- The group captured by the regex fragment `([0-9]*\.?[0-9]+)` when matched
at the start of `t`, with the usual greedy-plus-backtracking semantics;
`none` when the fragment does not match at the start of `t`.  Because the
three pieces range over digits, an optional single dot, and digits, the
captured text is the maximal prefix of `t` of the shape
digits, or digits-dot-digits, or dot-digits (at least one digit overall). -/
def matchNumber (t : List Char) : Option (List Char) :=
  let d1 := t.takeWhile Char.isDigit
  let r1 := t.dropWhile Char.isDigit
  match r1 with
  | '.' :: r2 =>
    let d2 := r2.takeWhile Char.isDigit
    if d2 = [] then
      if d1 = [] then none else some d1
    else
      some (d1 ++ '.' :: d2)
  | _ => if d1 = [] then none else some d1

/-- Attempt of the full pattern `{param}[:\s]*([0-9]*\.?[0-9]+)` anchored at
the start of the suffix `s` of the text; returns the captured number group.
Since no separator character is a digit or a dot, the greedy `[:\s]*`
consumes exactly the maximal separator run and never backtracks. -/
def tryMatchAt (param s : List Char) : Option (List Char) :=
  if param.isPrefixOf s then matchNumber ((s.drop param.length).dropWhile isSep)
  else none

/-- `re.search` of the pattern `{param}[:\s]*([0-9]*\.?[0-9]+)` over the text:
the captured group of the leftmost position at which the whole pattern
matches. -/
def searchParam (param : List Char) : List Char → Option (List Char)
  | [] => tryMatchAt param []
  | c :: rest =>
    match tryMatchAt param (c :: rest) with
    | some g => some g
    | none => searchParam param rest

/-- Value of a digit string read in base 10. -/
def digitsVal (ds : List Char) : ℕ :=
  ds.foldl (fun n c => 10 * n + (c.toNat - 48)) 0

/-- Python `float()` restricted to the unsigned decimal token language
(digit runs with at most one dot and at least one digit); every group the
matcher can produce lies in this language, and on it the model is exact.
Anything outside it (as the argument of a failing `float()` call) maps to
`none`, the modelled `except: continue` path of lines 244-247. -/
def parseFloat (s : List Char) : Option ℚ :=
  if s.all (fun c => c.isDigit || c == '.') ∧ s.count '.' ≤ 1 ∧ s.any Char.isDigit then
    some (mkRat
      (digitsVal (s.takeWhile (fun c => c != '.')) *
          10 ^ ((s.dropWhile (fun c => c != '.')).drop 1).length +
        digitsVal ((s.dropWhile (fun c => c != '.')).drop 1))
      (10 ^ ((s.dropWhile (fun c => c != '.')).drop 1).length))
  else none

/-- The classification of one matched value, lines 248-263 of `src/app.py`. -/
def classifyReading (param : String) (d : RefDetails) (v : ℚ) : Reading :=
  if v < d.min then
    ⟨param, v, d.unit, "Abnormal", "Low " ++ param ++ ": may indicate " ++ d.explanation⟩
  else if v > d.max then
    ⟨param, v, d.unit, "Abnormal", d.explanation⟩
  else
    ⟨param, v, d.unit, "Normal", "Within normal range."⟩

/-- Processing of a captured group: parse it, skipping the parameter when the
parse fails (the `try`/`except: continue` of lines 244-247), otherwise
classify. -/
def readingOfToken (a : String × RefDetails) (g : List Char) : Option Reading :=
  match parseFloat g with
  | none => none
  | some v => some (classifyReading a.1 a.2 v)

/-- The body of the per-parameter loop of `analyze_blood_report`:
search the text, then parse and classify the captured group. -/
def analyzeParam (text : List Char) (a : String × RefDetails) : Option Reading :=
  match searchParam a.1.data text with
  | none => none
  | some g => readingOfToken a g

/-- The static table `reference_ranges` of `src/app.py` lines 61-82,
in its literal key order. -/
def reference_ranges : List (String × RefDetails) :=
  [("hemoglobin", ⟨mkRat 135 10, mkRat 175 10, "g/dL", "Low hemoglobin may indicate anemia."⟩),
   ("rbc", ⟨mkRat 47 10, mkRat 61 10, "million cells/mcL", "Abnormal RBC count may suggest anemia or polycythemia."⟩),
   ("wbc", ⟨4500, 11000, "cells/mcL", "High WBC can indicate infection or inflammation."⟩),
   ("platelets", ⟨150000, 450000, "platelets/mcL", "Low platelets may lead to bleeding problems."⟩),
   ("glucose", ⟨70, 100, "mg/dL", "High glucose levels can indicate diabetes."⟩),
   ("cholesterol_total", ⟨125, 200, "mg/dL", "High cholesterol increases risk of heart disease."⟩),
   ("hdl", ⟨40, 60, "mg/dL", "Low HDL can increase heart disease risk."⟩),
   ("ldl", ⟨0, 100, "mg/dL", "High LDL is bad for cardiovascular health."⟩),
   ("triglycerides", ⟨0, 150, "mg/dL", "High triglycerides may increase heart disease risk."⟩),
   ("creatinine", ⟨mkRat 6 10, mkRat 13 10, "mg/dL", "Abnormal creatinine may indicate kidney issues."⟩),
   ("urea", ⟨7, 20, "mg/dL", "High urea may indicate kidney dysfunction."⟩),
   ("bilirubin_total", ⟨mkRat 3 10, mkRat 12 10, "mg/dL", "High bilirubin can indicate liver issues."⟩),
   ("ast", ⟨10, 40, "U/L", "High AST may indicate liver damage."⟩),
   ("alt", ⟨7, 56, "U/L", "High ALT may indicate liver damage."⟩),
   ("vitamin_b12", ⟨200, 900, "pg/mL", "Low B12 can lead to fatigue and anemia."⟩),
   ("vitamin_d", ⟨30, 100, "ng/mL", "Low vitamin D may cause bone issues."⟩),
   ("thyroid_tsh", ⟨mkRat 4 10, mkRat 40 10, "mIU/L", "High TSH may indicate hypothyroidism."⟩),
   ("thyroid_t3", ⟨80, 200, "ng/dL", "Abnormal T3 may indicate thyroid disorder."⟩),
   ("thyroid_t4", ⟨5, 12, "µg/dL", "Abnormal T4 may indicate thyroid disorder."⟩),
   ("crp", ⟨0, 10, "mg/L", "High CRP may indicate inflammation or infection."⟩)]

/-- `analyze_blood_report` of `src/app.py` lines 238-264: iterate the
reference table in order, appending at most one classified reading per
parameter. -/
def analyze_blood_report (text : String) : List Reading :=
  reference_ranges.filterMap (analyzeParam text.data)

/-- The static table `doctor_mapping` of `src/app.py` lines 195-203. -/
def doctor_mapping : List (String × List String) :=
  [("Hematologist", ["hemoglobin", "rbc", "wbc", "platelets", "vitamin_b12", "iron"]),
   ("Endocrinologist", ["glucose", "thyroid_tsh", "thyroid_t3", "thyroid_t4", "vitamin_d", "insulin"]),
   ("Cardiologist", ["cholesterol_total", "hdl", "ldl", "triglycerides", "blood_pressure"]),
   ("Nephrologist", ["creatinine", "urea", "electrolytes", "urine_protein"]),
   ("Hepatologist", ["bilirubin_total", "ast", "alt", "alp"]),
   ("Rheumatologist", ["crp", "rheumatoid_factor", "uric_acid"]),
   ("General Physician", ["cbc", "vitamin_d", "urinalysis", "glucose"])]

/-- Line 352 of `src/app.py`: the parameters of the abnormal readings. -/
def abnormalParams (analysis : List Reading) : List String :=
  (analysis.filter (fun r => r.status == "Abnormal")).map Reading.parameter

/-- Line 353 of `src/app.py`: the specialties with at least one parameter in
the abnormal list.  The Python code builds a `set` whose iteration order is
unspecified; since the mapping keys are pairwise distinct, the set is
modelled as the sublist of keys in mapping order. -/
def recommendedDoctors (abnormal : List String) : List String :=
  (doctor_mapping.filter (fun dp => abnormal.any (fun p => dp.2.contains p))).map Prod.fst

/-- Line 354 of `src/app.py`: join the recommended specialties with a comma,
falling back to the sentinel when none is recommended. -/
def doctor_recommendation (abnormal : List String) : String :=
  if recommendedDoctors abnormal = [] then "All parameters normal."
  else String.intercalate ", " (recommendedDoctors abnormal)

/-- The recommendation computed by `upload_report` (lines 349-354) from the
extracted text. -/
def upload_recommendation (text : String) : String :=
  doctor_recommendation (abnormalParams (analyze_blood_report text))

/-- Executable substring containment, the Python expression
`keyword in symptoms` of line 331: some suffix of the haystack starts with
the needle. -/
def hasSubstring (needle : List Char) : List Char → Bool
  | [] => needle.isPrefixOf []
  | c :: rest => needle.isPrefixOf (c :: rest) || hasSubstring needle rest

/-- The static table `symptom_to_tests` of `src/app.py` lines 85-190,
in its literal key order. -/
def symptom_to_tests : List (String × List String) :=
  [("fatigue", ["Complete Blood Count (CBC)", "Thyroid Function Test", "Vitamin B12 Test", "Vitamin D Test", "CRP Test"]),
   ("fever", ["CBC", "Blood Culture", "Malaria Test", "CRP Test"]),
   ("weight loss", ["Thyroid Function Test", "Glucose Test", "CBC", "Vitamin B12 Test"]),
   ("weakness", ["CBC", "Iron Test", "Vitamin B12 Test", "Thyroid Function Test"]),
   ("headache", ["Blood Pressure Test", "CBC", "Glucose Test"]),
   ("joint pain", ["CRP Test", "Rheumatoid Factor", "Uric Acid Test"]),
   ("yellowing of eyes", ["Liver Function Test", "Bilirubin Test", "AST", "ALT"]),
   ("swelling", ["Kidney Function Test", "Creatinine", "Urea", "Electrolytes Test"]),
   ("high cholesterol", ["Lipid Profile", "Cholesterol Test", "HDL", "LDL", "Triglycerides"]),
   ("diabetes risk", ["Glucose Test", "HbA1c Test", "Insulin Test"]),
   ("shortness of breath", ["CBC", "Chest X-ray", "Oxygen Saturation", "Electrolytes Test"]),
   ("palpitations", ["ECG", "CBC", "Thyroid Function Test", "Electrolytes Test"]),
   ("dizziness", ["CBC", "Blood Pressure Test", "Glucose Test", "Electrolytes Test"]),
   ("nausea", ["Liver Function Test", "Renal Function Test", "Electrolytes Test"]),
   ("vomiting", ["CBC", "Liver Function Test", "Renal Function Test", "Electrolytes Test"]),
   ("abdominal pain", ["Liver Function Test", "Ultrasound Abdomen", "Amylase", "Lipase"]),
   ("diarrhea", ["CBC", "Stool Culture", "Electrolytes Test"]),
   ("constipation", ["CBC", "Thyroid Function Test", "Vitamin D Test"]),
   ("blurred vision", ["Blood Glucose Test", "CBC", "Eye Exam", "Blood Pressure Test"]),
   ("cold hands and feet", ["CBC", "Iron Test", "Vitamin B12 Test", "Thyroid Function Test"]),
   ("sleep disturbances", ["Thyroid Function Test", "Vitamin D Test", "CBC", "CRP Test"]),
   ("anxiety", ["Thyroid Function Test", "CBC", "Vitamin B12 Test", "Electrolytes Test"]),
   ("depression", ["Vitamin D Test", "CBC", "Thyroid Function Test", "Vitamin B12 Test"]),
   ("hair loss", ["Thyroid Function Test", "Iron Test", "Vitamin D Test", "Vitamin B12 Test"]),
   ("skin rash", ["CBC", "Allergy Test", "CRP Test", "Liver Function Test"]),
   ("itching", ["Liver Function Test", "Allergy Test", "CBC", "Renal Function Test"]),
   ("easy bruising", ["Platelet Count", "CBC", "Vitamin K Test", "Coagulation Profile"]),
   ("bleeding gums", ["Platelet Count", "CBC", "Vitamin K Test", "Coagulation Profile"]),
   ("frequent infections", ["WBC Count", "CBC", "Immunoglobulin Test", "Vitamin D Test"]),
   ("slow wound healing", ["Glucose Test", "CBC", "Vitamin C Test", "HbA1c Test"]),
   ("chest pain", ["ECG", "Cardiac Enzymes", "CBC", "Lipid Profile"]),
   ("high blood pressure", ["Blood Pressure Test", "Electrolytes Test", "CBC", "Renal Function Test"]),
   ("low blood pressure", ["CBC", "Electrolytes Test", "Renal Function Test", "Glucose Test"]),
   ("frequent urination", ["Glucose Test", "Renal Function Test", "CBC", "Urinalysis"]),
   ("thirst", ["Glucose Test", "CBC", "Electrolytes Test", "Renal Function Test"]),
   ("back pain", ["CBC", "Renal Function Test", "CRP Test", "X-ray Spine"]),
   ("muscle cramps", ["Electrolytes Test", "CBC", "Vitamin D Test", "Magnesium Test"]),
   ("numbness", ["CBC", "Vitamin B12 Test", "Electrolytes Test", "Thyroid Function Test"]),
   ("tingling", ["CBC", "Vitamin B12 Test", "Electrolytes Test", "Thyroid Function Test"]),
   ("swollen lymph nodes", ["CBC", "Blood Culture", "CRP Test", "Ultrasound"]),
   ("loss of appetite", ["CBC", "Liver Function Test", "Thyroid Function Test", "Vitamin B12 Test"]),
   ("vomiting blood", ["CBC", "Coagulation Profile", "Liver Function Test", "Endoscopy"]),
   ("blood in stool", ["CBC", "Coagulation Profile", "Stool Occult Blood Test", "Colonoscopy"]),
   ("abnormal bleeding", ["CBC", "Coagulation Profile", "Platelet Count", "Vitamin K Test"]),
   ("weight gain", ["Thyroid Function Test", "CBC", "Lipid Profile", "Glucose Test"]),
   ("hair thinning", ["Thyroid Function Test", "Iron Test", "Vitamin B12 Test", "Vitamin D Test"]),
   ("cold intolerance", ["Thyroid Function Test", "CBC", "Vitamin D Test", "Iron Test"]),
   ("heat intolerance", ["Thyroid Function Test", "CBC", "Glucose Test", "Electrolytes Test"]),
   ("brittle nails", ["Iron Test", "Vitamin B12 Test", "Zinc Test", "CBC"]),
   ("mouth ulcers", ["CBC", "Vitamin B12 Test", "Folate Test", "Iron Test"]),
   ("frequent headaches", ["Blood Pressure Test", "CBC", "Glucose Test", "Thyroid Function Test"]),
   ("brain fog", ["Vitamin B12 Test", "Thyroid Function Test", "CBC", "Glucose Test"]),
   ("cold sores", ["CBC", "Viral PCR", "Vitamin D Test"]),
   ("joint stiffness", ["CRP Test", "Rheumatoid Factor", "Uric Acid Test", "X-ray Joint"]),
   ("swollen feet", ["Renal Function Test", "CBC", "Electrolytes Test", "Liver Function Test"]),
   ("chronic cough", ["CBC", "Chest X-ray", "Sputum Culture", "CRP Test"]),
   ("short-term memory loss", ["Vitamin B12 Test", "Thyroid Function Test", "CBC", "Glucose Test"]),
   ("difficulty concentrating", ["Vitamin B12 Test", "Thyroid Function Test", "CBC", "Glucose Test"]),
   ("frequent colds", ["WBC Count", "CBC", "Vitamin D Test", "Immunoglobulin Test"]),
   ("swelling around eyes", ["Renal Function Test", "CBC", "Electrolytes Test", "Liver Function Test"]),
   ("dark urine", ["Liver Function Test", "Renal Function Test", "CBC", "Bilirubin Test"]),
   ("pale skin", ["CBC", "Iron Test", "Vitamin B12 Test", "Folate Test"]),
   ("yellow skin", ["Liver Function Test", "Bilirubin Test", "AST", "ALT"]),
   ("abdominal bloating", ["Liver Function Test", "CBC", "Ultrasound Abdomen", "Amylase", "Lipase"]),
   ("acid reflux", ["CBC", "Liver Function Test", "Endoscopy", "H. Pylori Test"]),
   ("heartburn", ["CBC", "Liver Function Test", "Endoscopy", "H. Pylori Test"]),
   ("difficulty swallowing", ["CBC", "Endoscopy", "Thyroid Function Test", "Liver Function Test"]),
   ("persistent diarrhea", ["CBC", "Stool Culture", "Electrolytes Test", "CBC"]),
   ("persistent constipation", ["CBC", "Thyroid Function Test", "Vitamin D Test", "CBC"]),
   ("excessive sweating", ["CBC", "Thyroid Function Test", "Electrolytes Test", "Glucose Test"]),
   ("slow reflexes", ["Vitamin B12 Test", "Electrolytes Test", "CBC", "Thyroid Function Test"]),
   ("poor coordination", ["Vitamin B12 Test", "Electrolytes Test", "CBC", "Thyroid Function Test"]),
   ("difficulty walking", ["Vitamin B12 Test", "Electrolytes Test", "CBC", "MRI Spine"]),
   ("persistent cough", ["CBC", "Chest X-ray", "Sputum Culture", "CRP Test"]),
   ("hoarseness", ["CBC", "Thyroid Function Test", "Liver Function Test", "Endoscopy"]),
   ("swollen tongue", ["CBC", "Vitamin B12 Test", "Iron Test", "Folate Test"]),
   ("dry skin", ["Vitamin D Test", "Thyroid Function Test", "CBC", "Iron Test"]),
   ("itchy eyes", ["Allergy Test", "CBC", "Vitamin D Test", "CRP Test"]),
   ("blurred vision at night", ["Glucose Test", "CBC", "Vitamin A Test", "Eye Exam"]),
   ("tremors", ["Thyroid Function Test", "CBC", "Electrolytes Test", "Vitamin B12 Test"]),
   ("muscle weakness", ["Electrolytes Test", "CBC", "Vitamin D Test", "Magnesium Test"]),
   ("muscle pain", ["Electrolytes Test", "CBC", "Vitamin D Test", "CRP Test"]),
   ("frequent urination at night", ["Glucose Test", "CBC", "Renal Function Test", "Urinalysis"]),
   ("snoring", ["CBC", "Sleep Study", "Electrolytes Test", "Glucose Test"]),
   ("dry mouth", ["CBC", "Glucose Test", "Renal Function Test", "Electrolytes Test"]),
   ("thirsty all the time", ["Glucose Test", "CBC", "Renal Function Test", "Electrolytes Test"]),
   ("weight fluctuation", ["Thyroid Function Test", "CBC", "Glucose Test", "Lipid Profile"]),
   ("frequent mood swings", ["Thyroid Function Test", "CBC", "Vitamin D Test", "Vitamin B12 Test"]),
   ("nervousness", ["Thyroid Function Test", "CBC", "Electrolytes Test", "Vitamin B12 Test"]),
   ("rapid heartbeat", ["ECG", "Thyroid Function Test", "CBC", "Electrolytes Test"]),
   ("slow heartbeat", ["ECG", "Thyroid Function Test", "CBC", "Electrolytes Test"]),
   ("cold sweat", ["CBC", "Glucose Test", "ECG", "Electrolytes Test"]),
   ("chest tightness", ["ECG", "CBC", "Cardiac Enzymes", "Lipid Profile"]),
   ("fainting", ["CBC", "Glucose Test", "ECG", "Electrolytes Test"]),
   ("nosebleeds", ["CBC", "Platelet Count", "Coagulation Profile", "Vitamin K Test"]),
   ("cough with blood", ["CBC", "Chest X-ray", "Sputum Culture", "Coagulation Profile"]),
   ("shortness of breath on exertion", ["CBC", "Oxygen Saturation", "ECG", "Lipid Profile"]),
   ("leg cramps at night", ["Electrolytes Test", "Vitamin D Test", "CBC", "Magnesium Test"]),
   ("foot ulcers", ["Glucose Test", "CBC", "Renal Function Test", "Vitamin C Test"]),
   ("swollen joints", ["CRP Test", "Rheumatoid Factor", "Uric Acid Test", "X-ray Joint"]),
   ("difficulty climbing stairs", ["Vitamin D Test", "CBC", "Electrolytes Test", "Thyroid Function Test"]),
   ("frequent thirst", ["Glucose Test", "CBC", "Renal Function Test", "Electrolytes Test"]),
   ("dark circles under eyes", ["CBC", "Iron Test", "Vitamin B12 Test", "Vitamin D Test"]),
   ("pale lips", ["CBC", "Iron Test", "Vitamin B12 Test", "Folate Test"])]

/-- The loop of `recommend_tests` (lines 329-332): accumulate into a set the
test lists of every table key contained in the symptom text. -/
def symptomMatches (m : List (String × List String)) (s : String) : Finset String :=
  m.foldl (fun acc kt => if hasSubstring kt.1.data s.data then acc ∪ kt.2.toFinset else acc) ∅

/-- The `recommend_tests` route of `src/app.py` lines 325-333: lowercase the
input, then collect the deduplicated union of the matching test lists.  The
route returns the set as a list in unspecified order; it is modelled as the
set itself. -/
def recommend_tests (symptoms : String) : Finset String :=
  symptomMatches symptom_to_tests symptoms.toLower

/-- A successful per-parameter analysis is a successful search followed by a
successful parse, classified. -/
theorem analyzeParam_eq_some {td : List Char} {a : String × RefDetails} {r : Reading}
    (h : analyzeParam td a = some r) :
    ∃ g v, searchParam a.1.data td = some g ∧ parseFloat g = some v ∧
      r = classifyReading a.1 a.2 v := by
  cases hs : searchParam a.1.data td with
  | none => simp [analyzeParam, hs] at h
  | some g =>
    cases hp : parseFloat g with
    | none => simp [analyzeParam, readingOfToken, hs, hp] at h
    | some v =>
      refine ⟨g, v, rfl, hp, ?_⟩
      simp [analyzeParam, readingOfToken, hs, hp] at h
      exact h.symm

/-- Every reading of the analysis arises from a table entry, a captured
group of the search, and a successful parse. -/
theorem mem_analyze {text : String} {r : Reading} (h : r ∈ analyze_blood_report text) :
    ∃ a ∈ reference_ranges, ∃ g v, searchParam a.1.data text.data = some g ∧
      parseFloat g = some v ∧ r = classifyReading a.1 a.2 v := by
  obtain ⟨a, ha, hfa⟩ := List.mem_filterMap.mp h
  obtain ⟨g, v, h1, h2, h3⟩ := analyzeParam_eq_some hfa
  exact ⟨a, ha, g, v, h1, h2, h3⟩

theorem classifyReading_parameter (p : String) (d : RefDetails) (v : ℚ) :
    (classifyReading p d v).parameter = p := by
  unfold classifyReading; split_ifs <;> rfl

theorem classifyReading_value (p : String) (d : RefDetails) (v : ℚ) :
    (classifyReading p d v).value = v := by
  unfold classifyReading; split_ifs <;> rfl

/-- The classifier yields the status string Normal exactly on the closed
interval between the bounds. -/
theorem classifyReading_status_iff (p : String) (d : RefDetails) (v : ℚ) :
    (classifyReading p d v).status = "Normal" ↔ d.min ≤ v ∧ v ≤ d.max := by
  unfold classifyReading
  split_ifs with h1 h2
  · show ("Abnormal" : String) = "Normal" ↔ _
    exact iff_of_false (by decide) (fun hx => absurd hx.1 (not_le.mpr h1))
  · show ("Abnormal" : String) = "Normal" ↔ _
    exact iff_of_false (by decide) (fun hx => absurd hx.2 (not_le.mpr h2))
  · exact iff_of_true rfl ⟨not_lt.mp h1, not_lt.mp h2⟩

theorem classifyReading_low {p : String} {d : RefDetails} {v : ℚ} (h : v < d.min) :
    classifyReading p d v =
      ⟨p, v, d.unit, "Abnormal", "Low " ++ p ++ ": may indicate " ++ d.explanation⟩ := by
  unfold classifyReading; rw [if_pos h]

theorem classifyReading_high {p : String} {d : RefDetails} {v : ℚ}
    (h1 : ¬ v < d.min) (h2 : v > d.max) :
    classifyReading p d v = ⟨p, v, d.unit, "Abnormal", d.explanation⟩ := by
  unfold classifyReading; rw [if_neg h1, if_pos h2]

theorem classifyReading_inRange {p : String} {d : RefDetails} {v : ℚ}
    (h1 : ¬ v < d.min) (h2 : ¬ v > d.max) :
    classifyReading p d v = ⟨p, v, d.unit, "Normal", "Within normal range."⟩ := by
  unfold classifyReading; rw [if_neg h1, if_neg h2]

/-- The numeric pattern admits no sign, so every parsed value is nonnegative. -/
theorem parseFloat_nonneg {s : List Char} {v : ℚ} (h : parseFloat s = some v) : 0 ≤ v := by
  unfold parseFloat at h
  split_ifs at h with hc
  rw [← Option.some.inj h, Rat.mkRat_eq_divInt]
  exact Rat.divInt_nonneg (by positivity) (by positivity)

theorem reference_ranges_keys_nodup : (reference_ranges.map Prod.fst).Nodup := by decide

theorem reference_ranges_min_le_max : ∀ a ∈ reference_ranges, a.2.min ≤ a.2.max := by decide

theorem reference_ranges_min_zero :
    ∀ a ∈ reference_ranges, (a.1 = "ldl" ∨ a.1 = "triglycerides" ∨ a.1 = "crp") →
      a.2.min = 0 := by decide

theorem analyzeParam_parameter {td : List Char} {a : String × RefDetails} {r : Reading}
    (h : analyzeParam td a = some r) : r.parameter = a.1 := by
  obtain ⟨g, v, -, -, hr⟩ := analyzeParam_eq_some h
  rw [hr, classifyReading_parameter]

/-- The search returns the captured group of the first position, in document
order, at which the whole pattern matches; every earlier position fails. -/
theorem searchParam_first (param : List Char) (s : List Char) :
    ∀ g, searchParam param s = some g →
      ∃ i, tryMatchAt param (s.drop i) = some g ∧
        ∀ j, j < i → tryMatchAt param (s.drop j) = none := by
  induction s with
  | nil =>
    intro g h
    exact ⟨0, h, fun j hj => absurd hj (Nat.not_lt_zero j)⟩
  | cons c rest ih =>
    intro g h
    cases ht : tryMatchAt param (c :: rest) with
    | some g2 =>
      have hg : g2 = g := by simpa [searchParam, ht] using h
      exact ⟨0, by simpa using hg ▸ ht, fun j hj => absurd hj (Nat.not_lt_zero j)⟩
    | none =>
      have h2 : searchParam param rest = some g := by simpa [searchParam, ht] using h
      obtain ⟨i, hi1, hi2⟩ := ih g h2
      refine ⟨i + 1, by simpa using hi1, ?_⟩
      intro j hj
      cases j with
      | zero => simpa using ht
      | succ j2 => simpa using hi2 j2 (Nat.lt_of_succ_lt_succ hj)

theorem countP_analyze_zero (td : List Char) (pname : String)
    (l : List (String × RefDetails)) (hl : ∀ a ∈ l, a.1 ≠ pname) :
    (l.filterMap (analyzeParam td)).countP (fun r => r.parameter == pname) = 0 := by
  rw [List.countP_eq_zero]
  intro r hr
  obtain ⟨a, ha, hfa⟩ := List.mem_filterMap.mp hr
  simp only [beq_iff_eq]
  rw [analyzeParam_parameter hfa]
  exact hl a ha

/-- With pairwise distinct table keys, at most one reading per parameter name
appears in the analysis. -/
theorem countP_analyze_le_one (td : List Char) (pname : String) :
    ∀ l : List (String × RefDetails), (l.map Prod.fst).Nodup →
      (l.filterMap (analyzeParam td)).countP (fun r => r.parameter == pname) ≤ 1 := by
  intro l
  induction l with
  | nil => intro h; simp
  | cons a l ih =>
    intro hnd
    rw [List.map_cons, List.nodup_cons] at hnd
    cases hfa : analyzeParam td a with
    | none => rw [List.filterMap_cons_none hfa]; exact ih hnd.2
    | some r =>
      rw [List.filterMap_cons_some hfa, List.countP_cons]
      by_cases hp : r.parameter = pname
      · have ha1 : a.1 = pname := by rw [← analyzeParam_parameter hfa, hp]
        have hz : (l.filterMap (analyzeParam td)).countP (fun r => r.parameter == pname) = 0 := by
          apply countP_analyze_zero
          intro b hb hbe
          apply hnd.1
          have hmem : b.1 ∈ l.map Prod.fst := List.mem_map_of_mem Prod.fst hb
          rwa [hbe, ← ha1] at hmem
        rw [hz]
        simp [hp]
      · rw [if_neg (by simpa using hp)]
        simpa using ih hnd.2

theorem hasSubstring_iff (n : List Char) : ∀ hay, hasSubstring n hay = true ↔ n <:+: hay := by
  intro hay
  induction hay with
  | nil => simp [hasSubstring, List.isPrefixOf_iff_prefix]
  | cons c rest ih => simp [hasSubstring, List.isPrefixOf_iff_prefix, ih, List.infix_cons_iff]

theorem mem_symptomMatches_aux (s t : String) :
    ∀ (m : List (String × List String)) (acc : Finset String),
      (t ∈ m.foldl
          (fun acc kt => if hasSubstring kt.1.data s.data then acc ∪ kt.2.toFinset else acc)
          acc) ↔
        t ∈ acc ∨ ∃ kt ∈ m, hasSubstring kt.1.data s.data ∧ t ∈ kt.2 := by
  intro m
  induction m with
  | nil => intro acc; simp
  | cons kt m ih =>
    intro acc
    rw [List.foldl_cons]
    by_cases hc : hasSubstring kt.1.data s.data
    · rw [if_pos hc, ih]
      simp only [Finset.mem_union, List.mem_toFinset, List.mem_cons]
      constructor
      · rintro ((h | h) | ⟨kt2, h2, h3⟩)
        · exact Or.inl h
        · exact Or.inr ⟨kt, Or.inl rfl, hc, h⟩
        · exact Or.inr ⟨kt2, Or.inr h2, h3⟩
      · rintro (h | ⟨kt2, (rfl | h2), h3, h4⟩)
        · exact Or.inl (Or.inl h)
        · exact Or.inl (Or.inr h4)
        · exact Or.inr ⟨kt2, h2, h3, h4⟩
    · rw [if_neg hc, ih]
      constructor
      · rintro (h | ⟨kt2, h2, h3⟩)
        · exact Or.inl h
        · exact Or.inr ⟨kt2, List.mem_cons_of_mem kt h2, h3⟩
      · rintro (h | ⟨kt2, h2, h3, h4⟩)
        · exact Or.inl h
        · rcases List.mem_cons.mp h2 with rfl | h2
          · exact absurd h3 hc
          · exact Or.inr ⟨kt2, h2, h3, h4⟩

theorem mem_symptomMatches (m : List (String × List String)) (s t : String) :
    t ∈ symptomMatches m s ↔ ∃ kt ∈ m, hasSubstring kt.1.data s.data ∧ t ∈ kt.2 := by
  unfold symptomMatches
  rw [mem_symptomMatches_aux]
  simp

/-- The accumulated set is invariant under permutations of the table. -/
theorem symptomMatches_perm {m m2 : List (String × List String)} (h : m.Perm m2)
    (s : String) : symptomMatches m s = symptomMatches m2 s := by
  ext t
  rw [mem_symptomMatches, mem_symptomMatches]
  constructor
  · rintro ⟨kt, hkt, hh⟩; exact ⟨kt, h.mem_iff.mp hkt, hh⟩
  · rintro ⟨kt, hkt, hh⟩; exact ⟨kt, h.mem_iff.mpr hkt, hh⟩

theorem mem_abnormalParams {analysis : List Reading} {p : String} :
    p ∈ abnormalParams analysis ↔
      ∃ r ∈ analysis, r.status = "Abnormal" ∧ r.parameter = p := by
  unfold abnormalParams
  simp only [List.mem_map, List.mem_filter, beq_iff_eq]
  constructor
  · rintro ⟨r, ⟨h1, h2⟩, h3⟩; exact ⟨r, h1, h2, h3⟩
  · rintro ⟨r, h1, h2, h3⟩; exact ⟨r, ⟨h1, h2⟩, h3⟩

theorem contains_iff_mem {l : List String} {a : String} : l.contains a = true ↔ a ∈ l := by
  unfold List.contains
  exact List.elem_iff

theorem mem_recommendedDoctors {abnormal : List String} {doc : String} :
    doc ∈ recommendedDoctors abnormal ↔
      ∃ dp ∈ doctor_mapping, dp.1 = doc ∧ ∃ p ∈ dp.2, p ∈ abnormal := by
  unfold recommendedDoctors
  simp only [List.mem_map, List.mem_filter, List.any_eq_true]
  constructor
  · rintro ⟨dp, ⟨h1, p, h2, h3⟩, h4⟩
    exact ⟨dp, h1, h4, p, contains_iff_mem.mp h3, h2⟩
  · rintro ⟨dp, h1, h2, p, h3, h4⟩
    exact ⟨dp, ⟨h1, p, h4, contains_iff_mem.mpr h3⟩, h2⟩

theorem classifyReading_status_abnormal_iff (p : String) (d : RefDetails) (v : ℚ) :
    (classifyReading p d v).status = "Abnormal" ↔ ¬(d.min ≤ v ∧ v ≤ d.max) := by
  unfold classifyReading
  split_ifs with h1 h2
  · show ("Abnormal" : String) = "Abnormal" ↔ _
    exact iff_of_true rfl (fun hx => absurd hx.1 (not_le.mpr h1))
  · show ("Abnormal" : String) = "Abnormal" ↔ _
    exact iff_of_true rfl (fun hx => absurd hx.2 (not_le.mpr h2))
  · show ("Normal" : String) = "Abnormal" ↔ _
    exact iff_of_false (by decide) (not_not_intro ⟨not_lt.mp h1, not_lt.mp h2⟩)

/-- Claim C1: every reading of the analyzer has status Normal exactly when its
value lies between the bounds of its reference entry, both ends inclusive,
and status Abnormal otherwise; a value exactly at a bound is Normal. -/
theorem c1_status_normal_iff_in_range (text : String) (r : Reading)
    (h : r ∈ analyze_blood_report text) :
    ∃ d, (r.parameter, d) ∈ reference_ranges ∧
      (r.status = "Normal" ↔ d.min ≤ r.value ∧ r.value ≤ d.max) ∧
      (r.status = "Abnormal" ↔ ¬(d.min ≤ r.value ∧ r.value ≤ d.max)) := by
  obtain ⟨a, ha, g, v, hs, hp, hr⟩ := mem_analyze h
  refine ⟨a.2, ?_, ?_, ?_⟩
  · rw [hr, classifyReading_parameter, Prod.mk.eta]
    exact ha
  · rw [hr, classifyReading_value]
    exact classifyReading_status_iff a.1 a.2 v
  · rw [hr, classifyReading_value]
    exact classifyReading_status_abnormal_iff a.1 a.2 v

/-- Witness for C1: hemoglobin exactly at the minimum bound is Normal. -/
theorem c1_status_normal_iff_in_range_witness :
    ((⟨"hemoglobin", mkRat 135 10, "g/dL", "Normal", "Within normal range."⟩ : Reading) ∈
        analyze_blood_report "hemoglobin 13.5") ∧
      ∃ d, (("hemoglobin" : String), d) ∈ reference_ranges ∧
        (("Normal" : String) = "Normal" ↔ d.min ≤ mkRat 135 10 ∧ mkRat 135 10 ≤ d.max) ∧
        (("Normal" : String) = "Abnormal" ↔ ¬(d.min ≤ mkRat 135 10 ∧ mkRat 135 10 ≤ d.max)) :=
  ⟨by decide, c1_status_normal_iff_in_range "hemoglobin 13.5"
    ⟨"hemoglobin", mkRat 135 10, "g/dL", "Normal", "Within normal range."⟩ (by decide)⟩

/-- Claim C3: a matched value below the minimum yields the derived generic
low-side message built from the parameter name and the reference explanation;
a value above the maximum yields the reference explanation verbatim; a value
inside the bounds yields the fixed within-normal-range message. -/
theorem c3_explanation_cases (text : String) (r : Reading)
    (h : r ∈ analyze_blood_report text) :
    ∃ d, (r.parameter, d) ∈ reference_ranges ∧
      (r.value < d.min →
        r.status = "Abnormal" ∧
          r.explanation = "Low " ++ r.parameter ++ ": may indicate " ++ d.explanation) ∧
      (r.value > d.max → r.status = "Abnormal" ∧ r.explanation = d.explanation) ∧
      (d.min ≤ r.value ∧ r.value ≤ d.max →
        r.status = "Normal" ∧ r.explanation = "Within normal range.") := by
  obtain ⟨a, ha, g, v, hs, hp, hr⟩ := mem_analyze h
  have hv : r.value = v := by rw [hr, classifyReading_value]
  refine ⟨a.2, ?_, ?_, ?_, ?_⟩
  · rw [hr, classifyReading_parameter, Prod.mk.eta]
    exact ha
  · intro hlt
    rw [hv] at hlt
    rw [hr, classifyReading_low hlt]
    exact ⟨rfl, rfl⟩
  · intro hgt
    rw [hv] at hgt
    have hnlt : ¬ v < a.2.min := by
      intro hlt
      exact absurd (lt_of_lt_of_le hlt (reference_ranges_min_le_max a ha)) (lt_asymm hgt)
    rw [hr, classifyReading_high hnlt hgt]
    exact ⟨rfl, rfl⟩
  · rintro ⟨h1, h2⟩
    rw [hv] at h1 h2
    rw [hr, classifyReading_inRange (not_lt.mpr h1) (not_lt.mpr h2)]
    exact ⟨rfl, rfl⟩

/-- Witness for C3: a low hemoglobin value gets the derived low message. -/
theorem c3_explanation_cases_witness :
    ((⟨"hemoglobin", 5, "g/dL", "Abnormal",
        "Low hemoglobin: may indicate Low hemoglobin may indicate anemia."⟩ : Reading) ∈
        analyze_blood_report "hemoglobin 5") ∧
      ∃ d, (("hemoglobin" : String), d) ∈ reference_ranges ∧
        ((5 : ℚ) < d.min →
          ("Abnormal" : String) = "Abnormal" ∧
            "Low hemoglobin: may indicate Low hemoglobin may indicate anemia." =
              "Low " ++ "hemoglobin" ++ ": may indicate " ++ d.explanation) ∧
        ((5 : ℚ) > d.max →
          ("Abnormal" : String) = "Abnormal" ∧
            "Low hemoglobin: may indicate Low hemoglobin may indicate anemia." =
              d.explanation) ∧
        (d.min ≤ (5 : ℚ) ∧ (5 : ℚ) ≤ d.max →
          ("Abnormal" : String) = "Normal" ∧
            "Low hemoglobin: may indicate Low hemoglobin may indicate anemia." =
              "Within normal range.") :=
  ⟨by decide, c3_explanation_cases "hemoglobin 5"
    ⟨"hemoglobin", 5, "g/dL", "Abnormal",
      "Low hemoglobin: may indicate Low hemoglobin may indicate anemia."⟩ (by decide)⟩

/-- Claim C10: every reading has a nonnegative value, and for the parameters
whose reference minimum is zero the low branch is unreachable: such readings
are Normal or high-Abnormal with the verbatim reference explanation. -/
theorem c10_nonneg_values (text : String) (r : Reading)
    (h : r ∈ analyze_blood_report text) :
    0 ≤ r.value ∧
      ((r.parameter = "ldl" ∨ r.parameter = "triglycerides" ∨ r.parameter = "crp") →
        ∃ d, (r.parameter, d) ∈ reference_ranges ∧ d.min = 0 ∧
          (r.status = "Normal" ∨
            (r.status = "Abnormal" ∧ r.explanation = d.explanation))) := by
  obtain ⟨a, ha, g, v, hs, hp, hr⟩ := mem_analyze h
  have hv : r.value = v := by rw [hr, classifyReading_value]
  have hnn : 0 ≤ v := parseFloat_nonneg hp
  have hpar : r.parameter = a.1 := by rw [hr, classifyReading_parameter]
  refine ⟨by rw [hv]; exact hnn, ?_⟩
  intro hnames
  have hmin0 : a.2.min = 0 := by
    apply reference_ranges_min_zero a ha
    rw [← hpar]
    exact hnames
  have hnlt : ¬ v < a.2.min := by rw [hmin0]; exact not_lt.mpr hnn
  refine ⟨a.2, by rw [hpar, Prod.mk.eta]; exact ha, hmin0, ?_⟩
  by_cases hgt : v > a.2.max
  · right
    rw [hr, classifyReading_high hnlt hgt]
    exact ⟨rfl, rfl⟩
  · left
    rw [hr, classifyReading_inRange hnlt hgt]

/-- Witness for C10: a high crp value is Abnormal with the verbatim message. -/
theorem c10_nonneg_values_witness :
    ((⟨"crp", 20, "mg/L", "Abnormal",
        "High CRP may indicate inflammation or infection."⟩ : Reading) ∈
        analyze_blood_report "crp 20") ∧
      0 ≤ (20 : ℚ) ∧
      ((("crp" : String) = "ldl" ∨ ("crp" : String) = "triglycerides" ∨
          ("crp" : String) = "crp") →
        ∃ d, (("crp" : String), d) ∈ reference_ranges ∧ d.min = 0 ∧
          (("Abnormal" : String) = "Normal" ∨
            (("Abnormal" : String) = "Abnormal" ∧
              "High CRP may indicate inflammation or infection." = d.explanation))) :=
  ⟨by decide, c10_nonneg_values "crp 20"
    ⟨"crp", 20, "mg/L", "Abnormal",
      "High CRP may indicate inflammation or infection."⟩ (by decide)⟩

/-- Claim C5: on the text hemoglobin: 10.2 wbc 12000 the matcher produces a
hemoglobin reading of 10.2, abnormal on the low side, and a wbc reading of
12000, abnormal on the high side, against the reference ranges 13.5 to 17.5
and 4500 to 11000. -/
theorem c5_concrete_example :
    analyze_blood_report "hemoglobin: 10.2 wbc 12000" =
      [⟨"hemoglobin", mkRat 102 10, "g/dL", "Abnormal",
         "Low hemoglobin: may indicate Low hemoglobin may indicate anemia."⟩,
       ⟨"wbc", 12000, "cells/mcL", "Abnormal",
         "High WBC can indicate infection or inflammation."⟩] ∧
      ("hemoglobin",
        (⟨mkRat 135 10, mkRat 175 10, "g/dL",
          "Low hemoglobin may indicate anemia."⟩ : RefDetails)) ∈ reference_ranges ∧
      ("wbc",
        (⟨4500, 11000, "cells/mcL",
          "High WBC can indicate infection or inflammation."⟩ : RefDetails)) ∈
        reference_ranges ∧
      mkRat 102 10 < mkRat 135 10 ∧ (12000 : ℚ) > 11000 := by decide

/-- Claim C9: in the text breakfast 120 the parameter name ast occurs only
inside the word breakfast, at offset six, yet the matcher produces an ast
reading with value 120 from that occurrence. -/
theorem c9_substring_match :
    analyze_blood_report "breakfast 120" =
      [⟨"ast", 120, "U/L", "Abnormal", "High AST may indicate liver damage."⟩] ∧
      tryMatchAt ("ast" : String).data (("breakfast 120" : String).data.drop 6) =
        some ("120" : String).data ∧
      (∀ j, j < 6 → tryMatchAt ("ast" : String).data
        (("breakfast 120" : String).data.drop j) = none) := by decide

/-- Claim C7: the analysis holds at most one reading per parameter name, and
the captured group returned by the search is the one of the first position,
in document order, at which the full pattern matches. -/
theorem c7_first_match_wins (text : String) (pname : String) :
    (analyze_blood_report text).countP (fun r => r.parameter == pname) ≤ 1 ∧
      ∀ g, searchParam pname.data text.data = some g →
        ∃ i, tryMatchAt pname.data (text.data.drop i) = some g ∧
          ∀ j, j < i → tryMatchAt pname.data (text.data.drop j) = none := by
  constructor
  · exact countP_analyze_le_one text.data pname reference_ranges reference_ranges_keys_nodup
  · exact fun g h => searchParam_first pname.data text.data g h

/-- Witness for C7: a text listing wbc twice yields one reading, whose value
comes from the first occurrence. -/
theorem c7_first_match_wins_witness :
    (analyze_blood_report "wbc 12000 wbc 5000").countP (fun r => r.parameter == "wbc") ≤ 1 ∧
      ∃ i, tryMatchAt ("wbc" : String).data
            (("wbc 12000 wbc 5000" : String).data.drop i) = some ("12000" : String).data ∧
          ∀ j, j < i → tryMatchAt ("wbc" : String).data
            (("wbc 12000 wbc 5000" : String).data.drop j) = none :=
  ⟨(c7_first_match_wins "wbc 12000 wbc 5000" "wbc").1,
   (c7_first_match_wins "wbc 12000 wbc 5000" "wbc").2 ("12000" : String).data (by decide)⟩

/-- Claim C8: a captured token whose parse fails contributes no reading, and
every reading the analyzer returns comes from a successfully parsed token, so
the analyzer is a total function with no error outcome. -/
theorem c8_parse_failure_skipped (a : String × RefDetails) (g : List Char) (text : String)
    (h : parseFloat g = none) :
    readingOfToken a g = none ∧
      ∀ r ∈ analyze_blood_report text, ∃ b ∈ reference_ranges, ∃ g2 v,
        searchParam b.1.data text.data = some g2 ∧ parseFloat g2 = some v ∧
          r = classifyReading b.1 b.2 v := by
  constructor
  · unfold readingOfToken
    rw [h]
  · exact fun r hr => mem_analyze hr

/-- Witness for C8: the token abc fails to parse and is skipped. -/
theorem c8_parse_failure_skipped_witness :
    parseFloat ("abc" : String).data = none ∧
      readingOfToken
        ("hemoglobin",
          ⟨mkRat 135 10, mkRat 175 10, "g/dL", "Low hemoglobin may indicate anemia."⟩)
        ("abc" : String).data = none ∧
      ∀ r ∈ analyze_blood_report "hemoglobin 14", ∃ b ∈ reference_ranges, ∃ g2 v,
        searchParam b.1.data ("hemoglobin 14" : String).data = some g2 ∧
          parseFloat g2 = some v ∧ r = classifyReading b.1 b.2 v :=
  ⟨by decide,
   (c8_parse_failure_skipped
      ("hemoglobin",
        ⟨mkRat 135 10, mkRat 175 10, "g/dL", "Low hemoglobin may indicate anemia."⟩)
      ("abc" : String).data "hemoglobin 14" (by decide)).1,
   (c8_parse_failure_skipped
      ("hemoglobin",
        ⟨mkRat 135 10, mkRat 175 10, "g/dL", "Low hemoglobin may indicate anemia."⟩)
      ("abc" : String).data "hemoglobin 14" (by decide)).2⟩

/-- Claim C4: an empty abnormal list, or an abnormal list matching no
specialty, yields the fixed sentinel recommendation; a text in which no
parameter pattern matches yields the empty reading list together with the
very same sentinel. -/
theorem c4_sentinel_cases (text : String) :
    ((abnormalParams (analyze_blood_report text) = [] ∨
        recommendedDoctors (abnormalParams (analyze_blood_report text)) = []) →
      upload_recommendation text = "All parameters normal.") ∧
      ((∀ a ∈ reference_ranges, searchParam a.1.data text.data = none) →
        analyze_blood_report text = [] ∧
          upload_recommendation text = "All parameters normal.") := by
  constructor
  · intro h
    rcases h with h | h
    · unfold upload_recommendation doctor_recommendation
      rw [h]
      decide
    · unfold upload_recommendation doctor_recommendation
      rw [if_pos h]
  · intro h
    have hempty : analyze_blood_report text = [] := by
      apply List.filterMap_eq_nil_iff.mpr
      intro a ha
      unfold analyzeParam
      rw [h a ha]
    refine ⟨hempty, ?_⟩
    unfold upload_recommendation doctor_recommendation
    rw [hempty]
    decide

/-- Witness for C4: a text with no parameter occurrence gives the empty
analysis and the sentinel. -/
theorem c4_sentinel_cases_witness :
    analyze_blood_report "hello" = [] ∧
      upload_recommendation "hello" = "All parameters normal." :=
  ⟨((c4_sentinel_cases "hello").2 (by decide)).1,
   ((c4_sentinel_cases "hello").2 (by decide)).2⟩

/-- Claim C2 as stated is false: the joined specialty list carries no fixed
instruction prefix.  Two one-specialty inputs produce the bare specialty
names, which share no nonempty common prefix that a fixed instruction could
be. -/
theorem c2_recommendation_counterexample :
    upload_recommendation "hemoglobin 5" = "Hematologist" ∧
      upload_recommendation "ldl 200" = "Cardiologist" ∧
      ¬ ∃ instr : List Char, instr ≠ [] ∧ instr <+: ("Hematologist" : String).data ∧
          instr <+: ("Cardiologist" : String).data := by
  refine ⟨by decide, by decide, ?_⟩
  rintro ⟨instr, hne, ⟨t1, ht1⟩, ⟨t2, ht2⟩⟩
  cases instr with
  | nil => exact hne rfl
  | cons c cs =>
    have h1 : some c = ("Hematologist" : String).data.head? := by
      rw [← ht1]
      rfl
    have h2 : some c = ("Cardiologist" : String).data.head? := by
      rw [← ht2]
      rfl
    exact absurd (h1.symm.trans h2) (by decide)

/-- Claim C2, amended: the recommendation is the comma-joined specialty list
with no instruction prefix, or the sentinel; a specialty is listed exactly
when one of its mapped parameters belongs to a reading classified Abnormal. -/
theorem c2_recommendation_joined_list (text : String) :
    (∀ doc : String,
      doc ∈ recommendedDoctors (abnormalParams (analyze_blood_report text)) ↔
        ∃ dp ∈ doctor_mapping, dp.1 = doc ∧
          ∃ p ∈ dp.2, ∃ r ∈ analyze_blood_report text,
            r.status = "Abnormal" ∧ r.parameter = p) ∧
      upload_recommendation text =
        (if recommendedDoctors (abnormalParams (analyze_blood_report text)) = [] then
          "All parameters normal."
        else
          String.intercalate ", "
            (recommendedDoctors (abnormalParams (analyze_blood_report text)))) := by
  constructor
  · intro doc
    rw [mem_recommendedDoctors]
    constructor
    · rintro ⟨dp, h1, h2, p, h3, h4⟩
      obtain ⟨r, hr1, hr2, hr3⟩ := mem_abnormalParams.mp h4
      exact ⟨dp, h1, h2, p, h3, r, hr1, hr2, hr3⟩
    · rintro ⟨dp, h1, h2, p, h3, r, hr1, hr2, hr3⟩
      exact ⟨dp, h1, h2, p, h3, mem_abnormalParams.mpr ⟨r, hr1, hr2, hr3⟩⟩
  · rfl

/-- Claim C6: the symptom endpoint returns exactly the deduplicated union of
the test lists of the keys contained in the lowercased input as substrings,
and the returned set is invariant under permutations of the table. -/
theorem c6_symptom_union (s t : String) (m2 : List (String × List String))
    (hperm : symptom_to_tests.Perm m2) :
    (t ∈ recommend_tests s ↔
      ∃ kt ∈ symptom_to_tests, kt.1.data <:+: s.toLower.data ∧ t ∈ kt.2) ∧
      symptomMatches m2 s.toLower = recommend_tests s := by
  constructor
  · unfold recommend_tests
    rw [mem_symptomMatches]
    constructor
    · rintro ⟨kt, h1, h2, h3⟩
      exact ⟨kt, h1, (hasSubstring_iff kt.1.data _).mp h2, h3⟩
    · rintro ⟨kt, h1, h2, h3⟩
      exact ⟨kt, h1, (hasSubstring_iff kt.1.data _).mpr h2, h3⟩
  · unfold recommend_tests
    exact (symptomMatches_perm hperm s.toLower).symm

/-- Witness for C6 on the overlapping keys fatigue and joint pain, with the
table reversed as the permuted variant. -/
theorem c6_symptom_union_witness :
    (("CRP Test" : String) ∈ recommend_tests "I have fatigue and joint pain" ↔
      ∃ kt ∈ symptom_to_tests,
        kt.1.data <:+: ("I have fatigue and joint pain" : String).toLower.data ∧
          ("CRP Test" : String) ∈ kt.2) ∧
      symptomMatches symptom_to_tests.reverse
          ("I have fatigue and joint pain" : String).toLower =
        recommend_tests "I have fatigue and joint pain" :=
  c6_symptom_union "I have fatigue and joint pain" "CRP Test" symptom_to_tests.reverse
    (List.reverse_perm symptom_to_tests).symm
